import Mathlib

/-!
Shallow embedding of the mlgen2 evolutionary core (`src/mlgen2/bases.py` and
`src/mlgen2/evolvers.py`).

Numbers are modelled by `ℚ` (Python floats treated as exact rationals) except
`Critter.fitness`, which `Critter.__init__` annotates as `int` and which no
operation of the evolver ever rescales, so it is modelled by `ℤ`.

Python runtime failures (AttributeError, TypeError, ValueError, AssertionError)
are modelled by `Except PyError`: a raised exception becomes `Except.error`,
and the `do`-notation bind propagates it outward exactly like Python exception
propagation through callers that install no handler.

Randomness (`random.choice`, `random.sample`, `np.random.uniform`) is modelled
by explicit oracle arguments: an index oracle selects which element a `choice`
or `sample` call returns, and a unit draw `u` stands for the underlying
uniform-[0,1) variate of `np.random.uniform(low, high) = low + (high-low)*u`.
All theorems quantify over the oracles, so they hold for every random seed.
-/

namespace Mlgen2

/-- A vector: a rank-1 numpy array of floats. -/
abbrev Vec := List ℚ

/-- A matrix: a rank-2 numpy array of floats, stored as its list of rows. -/
abbrev Mat := List (List ℚ)

/-- Python exceptions that the modelled code can raise. -/
inductive PyError where
  | attributeError (obj att : String)
  | typeError (msg : String)
  | valueError (msg : String)
  | assertionError
deriving DecidableEq, Repr

/-- `bases.Physique`: the five physical trait scalars set in
`Physique.__init__` (`mass`, `max_s`, `max_dsp`, `max_dsn`, `max_dh`). -/
structure Physique where
  mass : ℚ
  max_s : ℚ
  max_dsp : ℚ
  max_dsn : ℚ
  max_dh : ℚ
deriving DecidableEq, Repr

/-- The attribute names of a `Physique` instance, in the order
`Physique.__init__` assigns them; `Physique().__dict__.keys()` in
`GlobalGA._crossover` evaluates to exactly this ordered key view. -/
def Physique.attrNames : List String :=
  ["mass", "max_s", "max_dsp", "max_dsn", "max_dh"]

/-- `bases.Location`: the dynamic position/heading/speed state. -/
structure Location where
  position : ℚ × ℚ
  heading : ℚ
  speed : ℚ
deriving DecidableEq, Repr

/-- `Location()` with all defaulted arguments, as constructed inside
`GlobalGA.evolve_generation` for each offspring. -/
def Location.default : Location :=
  { position := (0, 0), heading := 0, speed := 0 }

/-- `bases.Brain`: the list of activation functions, coefficient matrices and
intercept (bias) vectors.  `Brain.__init__` asserts the three lists have equal
length; the structure itself keeps the three fields and the theorems carry the
length equalities as hypotheses where they matter. -/
structure Brain where
  afs : List (Vec → Vec)
  coefs : List Mat
  intercepts : List Vec

/-- `self._n_layers = len(coefs) + 1` from `Brain.__init__`. -/
def Brain.nLayers (b : Brain) : ℕ := b.coefs.length + 1

/-- `bases.Critter`: the lifetime attributes (`physique`, `sensory`, `brain`)
and dynamic attributes (`location`, `fitness`, `energy`) set in
`Critter.__init__`.  The runtime class of the instance (`Plant`, `Herby`, ...)
is carried as the `cls` tag, and the sensory extractor — opaque to the evolver,
inherited by reference — is carried as an optional reference identifier. -/
structure Critter where
  cls : String
  physique : Option Physique
  sensory : Option ℕ
  brain : Option Brain
  location : Location
  fitness : ℤ
  energy : ℚ

/-- The attribute names a `Critter` instance carries, in the order
`Critter.__init__` assigns them.  Note that none of the `Physique` field names
and neither `coefs` nor `intercepts` appear here: those live on
`critter.physique` and `critter.brain`, not on the critter itself. -/
def Critter.attrNames : List String :=
  ["physique", "sensory", "brain", "location", "fitness", "energy"]

/-! ## Python primitives used by the evolver -/

/-- Python `int(x)` on a float: truncation toward zero. -/
def pyInt (q : ℚ) : ℤ :=
  if 0 ≤ q then ⌊q⌋ else ⌈q⌉

/-- A value `random.choice` may receive in this module: either a genuine
sequence (indexable) or a `dict_keys` view, which in Python 3 is iterable but
not indexable. -/
inductive PySeq (α : Type) where
  | list (l : List α)
  | dictKeys (l : List α)

/-- `random.choice(seq)` evaluates `seq[i]` at a random in-range index `i`
supplied here by the oracle `pick` (reduced modulo the length).  Indexing a
`dict_keys` view raises `TypeError` in Python 3; an empty sequence raises
`IndexError`, modelled as a `valueError` here since the module never hits it
with a distinct handler. -/
def pyChoice {α : Type} (seq : PySeq α) (pick : ℕ) : Except PyError α :=
  match seq with
  | .dictKeys _ => .error (.typeError "dict_keys object is not subscriptable")
  | .list l =>
    match l.get? (pick % l.length) with
    | some a => .ok a
    | none => .error (.valueError "Cannot choose from an empty sequence")

/-- An argument handed to the Python builtin `range` in this module: either an
integer or (erroneously) a list, recorded by its length. -/
inductive PyRangeArg where
  | intArg (n : ℤ)
  | listArg (len : ℕ)

/-- Python `range(x)` materialised as a list: defined for an integer argument,
`TypeError` for a list argument (`range(brain.coefs)` in
`GlobalGA._mutate_brain` passes the list of coefficient matrices). -/
def pyRange : PyRangeArg → Except PyError (List ℕ)
  | .intArg n => .ok (List.range n.toNat)
  | .listArg _ => .error (.typeError "list object cannot be interpreted as an integer")

/-- `random.sample(population, 2)`: raises `ValueError` when the population has
fewer than two members, otherwise returns an ordered pair of two distinct
elements; the oracle indices `i` and `j` select which pair (the second index is
drawn among the positions other than the first). -/
def pySample2 {α : Type} (l : List α) (i j : ℕ) : Except PyError (α × α) :=
  match l with
  | [] => .error (.valueError "Sample larger than population or is negative")
  | [_] => .error (.valueError "Sample larger than population or is negative")
  | a :: b :: rest =>
    let l' := a :: b :: rest
    let i' := i % l'.length
    let j' := j % (l'.length - 1)
    let j'' := if j' < i' then j' else j' + 1
    .ok (l'.getD i' a, l'.getD j'' a)

/-- `np.random.uniform(low, high)` computed as numpy computes it,
`low + (high - low) * u`, with `u` the underlying uniform-[0,1) draw. -/
def npUniform (low high u : ℚ) : ℚ :=
  low + (high - low) * u

/-- `assert cond` : raises `AssertionError` when the condition is false. -/
def pyAssert (cond : Bool) : Except PyError Unit :=
  if cond then .ok () else .error .assertionError

/-! ## Stable descending sort (`sorted(critters, key=lambda x: x.fitness, reverse=True)`)

Python's `sorted` is guaranteed stable by the language reference, and
`reverse=True` reverses the comparison, not the output, so ties keep their
original relative order.  The insertion sort below places each element before
every already-placed element of equal fitness; since elements are inserted
from the right end of the input, an earlier element is inserted later and
lands before its ties — exactly the stable descending order. -/

/-- Insert a critter into a fitness-descending list, before any critter of
equal fitness (the inserted critter is the earlier one in the original list). -/
def insertDesc (c : Critter) : List Critter → List Critter
  | [] => [c]
  | d :: ds => if d.fitness > c.fitness then d :: insertDesc c ds else c :: d :: ds

/-- Stable sort by fitness, descending:
`sorted(critters, key=lambda x: x.fitness, reverse=True)`. -/
def sortByFitnessDesc (critters : List Critter) : List Critter :=
  critters.foldr insertDesc []

/-- Descending comparison on fitness. -/
def fitGe (a b : Critter) : Prop := b.fitness ≤ a.fitness


/-! ## Brain forward pass (`Brain.__call__`)

`Brain.__call__` on a rank-1 input builds `activity`, a list of one activation
per conceptual layer, sets `activity[0] = x`, runs
`for i, (m, b) in enumerate(zip(self.coefs, self.intercepts)):
    activity[i+1] = self.afs[i](np.dot(activity[i], m) + b)`
and returns `activity[-1]`.  Filling the array in order and returning its last
cell is exactly a left fold of the layer step over the zipped layer lists
(under the constructor's assertion that the three lists have equal length,
`self.afs[i]` inside the loop agrees with zipping `afs` in as well).  The
vectorised branch for rank-2 inputs (`len(x.shape) > 1`) maps this rank-1 path
over the rows and is outside the claims, which concern single input vectors. -/

/-- `np.dot(v, m)` for a rank-1 `v` and rank-2 `m`:
component `j` of the result is `Σ_i v[i] * m[i][j]`. -/
def dotMV (v : Vec) (m : Mat) : Vec :=
  match m with
  | [] => []
  | r0 :: _ =>
    (List.range r0.length).map (fun j =>
      ((v.zip m).map (fun p => p.1 * p.2.getD j 0)).sum)

/-- Numpy elementwise `+` on two vectors of equal length. -/
def vecAdd (a b : Vec) : Vec := List.zipWith (· + ·) a b

/-- The layer loop of `Brain.__call__`: thread the activation through
`af(np.dot(act, m) + bias)` for each `(af, (m, bias))` layer triple. -/
def callLoop : List ((Vec → Vec) × Mat × Vec) → Vec → Vec
  | [], act => act
  | (af, m, bias) :: rest, act => callLoop rest (af (vecAdd (dotMV act m) bias))

/-- `Brain.__call__` on a rank-1 input. -/
def Brain.call (b : Brain) (x : Vec) : Vec :=
  callLoop (b.afs.zip (b.coefs.zip b.intercepts)) x

/-- The activation sequence exactly as the specification words it:
activation 0 is the input, and activation (i+1) applies activation function i
to `activation i · coefficient i + bias i`. -/
def specActivation (b : Brain) (x : Vec) : ℕ → Vec
  | 0 => x
  | i + 1 =>
    (b.afs.getD i id)
      (vecAdd (dotMV (specActivation b x i) (b.coefs.getD i [])) (b.intercepts.getD i []))

/-- Shape-chaining of a layer list (the defensive check the spec asks to do at
genome-creation time): each coefficient matrix has one row per input feature,
every row as wide as the layer's bias vector, and the widths chain from the
input width down to the output width. -/
def layersWf : List (Mat × Vec) → ℕ → ℕ → Prop
  | [], win, wout => win = wout
  | (m, bias) :: rest, win, wout =>
    m.length = win ∧ 0 < win ∧ (∀ row ∈ m, row.length = bias.length) ∧
      layersWf rest bias.length wout


/-! ## GlobalGA -/

/-- `evolvers.GlobalGA`: the four hyperparameters fixed at construction.
`GlobalGA.__init__` asserts `0 < selection_frac < 1`, `0 ≤ crossover_rate ≤ 1`
and nonnegative mutation rates; theorems carry the bound they need as a
hypothesis. -/
structure GlobalGA where
  selection_frac : ℚ
  crossover_rate : ℚ
  physical_mutation_rate : ℚ
  mental_mutation_rate : ℚ
deriving DecidableEq, Repr

/-- `GlobalGA._select`: sort by fitness descending (stable) and keep the first
`int(len(c) * selection_frac)` critters (Python list slicing `c[:k]`). -/
def GlobalGA.select (ga : GlobalGA) (critters : List Critter) : List Critter :=
  let c := sortByFitnessDesc critters
  c.take (pyInt ((c.length : ℚ) * ga.selection_frac)).toNat

/-! ## Crossover (`GlobalGA._crossover`)

`_crossover_att(p, s, att)` computes
`getattr(p, att) * (1 - rate) + getattr(s, att) * rate`, and `_crossover`
applies it with `p = primary` and `s = secondary` — the **critters**, not their
physiques or brains — over the `Physique` field names and over
`["coefs", "intercepts"]`.  A `Critter` has none of those attributes, so the
very first lookup (`getattr(primary, "mass")`) raises `AttributeError`.  The
dynamic values and operators involved are modelled by `PyVal`. -/

/-- A Python value that can sit in a `Critter` attribute slot. -/
inductive PyVal where
  | none
  | num (q : ℚ)
  | intVal (n : ℤ)
  | physique (p : Physique)
  | sensoryRef (id : ℕ)
  | brainVal (b : Brain)
  | location (l : Location)

/-- Python `getattr(c, att)` on a `Critter` instance: returns the attribute
value for the six names assigned in `Critter.__init__` and raises
`AttributeError` for every other name. -/
def Critter.pyGetattr (c : Critter) (att : String) : Except PyError PyVal :=
  if att = "physique" then .ok ((c.physique.map PyVal.physique).getD PyVal.none)
  else if att = "sensory" then .ok ((c.sensory.map PyVal.sensoryRef).getD PyVal.none)
  else if att = "brain" then .ok ((c.brain.map PyVal.brainVal).getD PyVal.none)
  else if att = "location" then .ok (.location c.location)
  else if att = "fitness" then .ok (.intVal c.fitness)
  else if att = "energy" then .ok (.num c.energy)
  else .error (.attributeError "Critter" att)

/-- Python `value * r` for a float `r`: defined on numbers, `TypeError` on the
other attribute values this module could reach. -/
def PyVal.mulQ : PyVal → ℚ → Except PyError PyVal
  | .num q, r => .ok (.num (q * r))
  | .intVal n, r => .ok (.num (n * r))
  | _, _ => .error (.typeError "unsupported operand type for *")

/-- Python `a + b` on the results of the two scaled lookups. -/
def PyVal.addV : PyVal → PyVal → Except PyError PyVal
  | .num a, .num b => .ok (.num (a + b))
  | _, _ => .error (.typeError "unsupported operand type for +")

/-- Coerce a crossover result into a `Physique` field of the typed model. -/
def PyVal.toQ : PyVal → Except PyError ℚ
  | .num q => .ok q
  | .intVal n => .ok (n : ℚ)
  | _ => .error (.typeError "Physique field value is not numeric")

/-- `_crossover_att(p, s, att)`:
`getattr(p, att) * (1 - rate) + (getattr(s, att) * rate)`, in Python's
left-to-right evaluation order. -/
def GlobalGA.crossoverAtt (ga : GlobalGA) (p s : Critter) (att : String) :
    Except PyError PyVal := do
  let vp ← p.pyGetattr att
  let a ← vp.mulQ (1 - ga.crossover_rate)
  let vs ← s.pyGetattr att
  let b' ← vs.mulQ ga.crossover_rate
  a.addV b'

/-- `GlobalGA._crossover`.  The physique dict comprehension iterates
`Physique().__dict__.keys()` in assignment order and raises at its first key;
were the lookups to succeed, `Brain(**cross_b_atts)` would itself raise
`TypeError`, because `Brain.__init__(afs, coefs, intercepts)` has no default
for `afs` and the kwargs carry only `coefs` and `intercepts`. -/
def GlobalGA.crossover (ga : GlobalGA) (primary secondary : Critter) :
    Except PyError (Physique × Brain) := do
  -- cross_p_atts = {k: _crossover_att(primary, secondary, k) for k in p_atts}
  let pvals ← Physique.attrNames.mapM (ga.crossoverAtt primary secondary)
  -- physique = Physique(**cross_p_atts)
  let qs ← pvals.mapM PyVal.toQ
  let _physique : Physique :=
    { mass := qs.getD 0 0, max_s := qs.getD 1 0, max_dsp := qs.getD 2 0,
      max_dsn := qs.getD 3 0, max_dh := qs.getD 4 0 }
  -- cross_b_atts = {k: _crossover_att(primary, secondary, k) for k in m_atts}
  let _bvals ← ["coefs", "intercepts"].mapM (ga.crossoverAtt primary secondary)
  -- brain = Brain(**cross_b_atts)
  .error (.typeError "Brain.__init__ missing 1 required positional argument: afs")

/-! ## Mutation (`GlobalGA._mutate_physique`, `GlobalGA._mutate_brain`) -/

/-- Lookup of a `Physique` field by its attribute name. -/
def Physique.getAttrQ (p : Physique) : String → ℚ
  | "mass" => p.mass
  | "max_s" => p.max_s
  | "max_dsp" => p.max_dsp
  | "max_dsn" => p.max_dsn
  | "max_dh" => p.max_dh
  | _ => 0

/-- `setattr(physique, att, v)` for a `Physique` field name. -/
def Physique.setAttrQ (p : Physique) (att : String) (v : ℚ) : Physique :=
  if att = "mass" then { p with mass := v }
  else if att = "max_s" then { p with max_s := v }
  else if att = "max_dsp" then { p with max_dsp := v }
  else if att = "max_dsn" then { p with max_dsn := v }
  else if att = "max_dh" then { p with max_dh := v }
  else p

/-- `GlobalGA._mutate_physique`.  `random.choice(physique.__dict__.keys())`
hands `random.choice` a `dict_keys` view, which it cannot index (Python 3),
so the call raises `TypeError` before any field is read.  The remaining lines
are modelled anyway: note the source computes
`val + np.random.uniform(val*(1-rate), val*(1+rate))` — the drawn value is
**added to** `val`, not substituted for it. -/
def GlobalGA.mutatePhysique (ga : GlobalGA) (physique : Physique)
    (pick : ℕ) (u : ℚ) : Except PyError Physique := do
  -- att = random.choice(physique.__dict__.keys())
  let att ← pyChoice (PySeq.dictKeys Physique.attrNames) pick
  -- val = getattr(physique, att)
  let val := physique.getAttrQ att
  -- new_val = val + np.random.uniform(val * (1 - rate), val * (1 + rate))
  let new_val := val + npUniform (val * (1 - ga.physical_mutation_rate))
    (val * (1 + ga.physical_mutation_rate)) u
  -- setattr(physique, att, new_val); return physique
  .ok (physique.setAttrQ att new_val)

/-- Elementwise `val + np.random.uniform(val*(1-rate), val*(1+rate), val.shape)`
on a rank-1 tensor, with `u j` the unit draw for element `j`. -/
def mutVec (v : Vec) (rate : ℚ) (u : ℕ → ℚ) : Vec :=
  v.mapIdx (fun j q => q + npUniform (q * (1 - rate)) (q * (1 + rate)) (u j))

/-- The same elementwise rule on a rank-2 tensor. -/
def mutMat (m : Mat) (rate : ℚ) (u : ℕ → ℕ → ℚ) : Mat :=
  m.mapIdx (fun i row => mutVec row rate (u i))

/-- `GlobalGA._mutate_brain`.  `layer_num = random.choice(list(range(brain.coefs)))`
applies the builtin `range` to the coefficient **list** rather than to its
length, which raises `TypeError` before any layer is touched.  The rest of the
body — pick `"coefs"` or `"intercepts"`, rebuild that one layer from the
(shifted) elementwise draw, leave everything else alone — is modelled anyway. -/
def GlobalGA.mutateBrain (ga : GlobalGA) (brain : Brain)
    (attPick layerPick : ℕ) (u : ℕ → ℕ → ℚ) : Except PyError Brain := do
  -- att = random.choice(["coefs", "intercepts"])
  let att ← pyChoice (PySeq.list ["coefs", "intercepts"]) attPick
  -- layer_num = random.choice(list(range(brain.coefs)))
  let layerIdxs ← pyRange (.listArg brain.coefs.length)
  let layer_num ← pyChoice (PySeq.list layerIdxs) layerPick
  -- full_val = getattr(brain, att); val = full_val[layer_num]
  -- full_val[layer_num] = val + np.random.uniform(..., val.shape)
  -- setattr(brain, att, full_val); return brain
  if att = "coefs" then
    let newLayer := mutMat (brain.coefs.getD layer_num []) ga.mental_mutation_rate u
    .ok { brain with coefs := brain.coefs.set layer_num newLayer }
  else
    let newLayer := mutVec (brain.intercepts.getD layer_num []) ga.mental_mutation_rate (u 0)
    .ok { brain with intercepts := brain.intercepts.set layer_num newLayer }

/-! ## Mating and generation step -/

/-- The random draws one `mate_pair` call can consume. -/
structure MateDraws where
  physPick : ℕ
  physU : ℚ
  brainAttPick : ℕ
  brainLayerPick : ℕ
  brainU : ℕ → ℕ → ℚ

/-- `GlobalGA.mate_pair`: assert the two parents share a runtime class, then
crossover, then the optional mutations, then construct the offspring through
the primary parent's class with the parent's sensory reference, the supplied
location, and `Critter.__init__`'s defaulted `fitness=0` and `energy=0`
(no kwargs are passed by `evolve_generation`). -/
def GlobalGA.matePair (ga : GlobalGA) (primary secondary : Critter)
    (location : Location) (mutate_physique mutate_brain : Bool)
    (d : MateDraws) : Except PyError Critter := do
  -- assert primary.__class__ == secondary.__class__
  let _ ← pyAssert (primary.cls == secondary.cls)
  -- sensory = primary.sensory ; cls = primary.__class__
  let (new_physique, new_brain) ← ga.crossover primary secondary
  let new_physique ← if mutate_physique then
      ga.mutatePhysique new_physique d.physPick d.physU
    else pure new_physique
  let new_brain ← if mutate_brain then
      ga.mutateBrain new_brain d.brainAttPick d.brainLayerPick d.brainU
    else pure new_brain
  -- return cls(new_physique, sensory, new_brain, location)
  .ok { cls := primary.cls, physique := some new_physique,
        sensory := primary.sensory, brain := some new_brain,
        location := location, fitness := 0, energy := 0 }

/-- The random draws one `evolve_generation` call can consume: for each loop
iteration `n`, the pair of `random.sample` indices and the mating draws. -/
structure EvolveDraws where
  pairIdx : ℕ → ℕ × ℕ
  mateAt : ℕ → MateDraws

/-- `GlobalGA.evolve_generation`.  In source-local names:
`selection = self._select(critters)` (inlined below),
`new_gen_size = len(critters) - len(selection)`, then
`for n in range(new_gen_size): a, b = random.sample(selection, 2);
new_gen_pool.append(self.mate_pair(a, b, Location(), ...))`, and finally
`return selection + new_gen_pool`. -/
def GlobalGA.evolveGeneration (ga : GlobalGA) (critters : List Critter)
    (mutate_physique mutate_brain : Bool) (draws : EvolveDraws) :
    Except PyError (List Critter) := do
  let new_gen_pool ←
    (List.range (critters.length - (ga.select critters).length)).mapM (fun n => do
      let ab ← pySample2 (ga.select critters) (draws.pairIdx n).1 (draws.pairIdx n).2
      ga.matePair ab.1 ab.2 Location.default mutate_physique mutate_brain (draws.mateAt n))
  .ok (ga.select critters ++ new_gen_pool)

/-! ## Concrete fixtures

Small concrete critters, hyperparameter sets and oracle draws used to evaluate
the embedded code on explicit inputs. -/

/-- A critter with a given class tag and fitness and no physique, sensory
extractor or brain (all three are `None`-able in `Critter.__init__`). -/
def mkTestCritter (tag : String) (fit : ℤ) : Critter :=
  { cls := tag
    physique := none
    sensory := none
    brain := none
    location := Location.default
    fitness := fit
    energy := 0 }

/-- Hyperparameters with `selection_frac = 1/2` (all asserts of
`GlobalGA.__init__` hold). -/
def gaHalf : GlobalGA :=
  { selection_frac := 1/2
    crossover_rate := 1/2
    physical_mutation_rate := 0
    mental_mutation_rate := 0 }

/-- Hyperparameters with `selection_frac = 2/3`: on a population of three,
two parents are selected and one offspring slot remains. -/
def gaTwoThirds : GlobalGA :=
  { selection_frac := 2/3
    crossover_rate := 1/2
    physical_mutation_rate := 0
    mental_mutation_rate := 0 }

/-- Hyperparameters with `selection_frac = 3/4`: on a population of four,
three parents are selected and one offspring slot remains. -/
def gaThreeQuarters : GlobalGA :=
  { selection_frac := 3/4
    crossover_rate := 1/2
    physical_mutation_rate := 0
    mental_mutation_rate := 0 }

/-- A fixed, explicit choice of every random draw (one concrete seed). -/
def zeroDraws : EvolveDraws :=
  { pairIdx := fun _ => (0, 0)
    mateAt := fun _ =>
      { physPick := 0
        physU := 0
        brainAttPick := 0
        brainLayerPick := 0
        brainU := fun _ _ => 0 } }

def cF10 : Critter := mkTestCritter "Herby" 10
def cF1 : Critter := mkTestCritter "Herby" 1
def cF5 : Critter := mkTestCritter "Herby" 5
def cF2 : Critter := mkTestCritter "Herby" 2

/-- Tied-fitness critters for observing the stable tie-break of the sort. -/
def tieA : Critter := mkTestCritter "TieA" 5
def tieB : Critter := mkTestCritter "TieB" 5
def tieLow : Critter := mkTestCritter "TieLow" 1

/-- A mixed-species population: the two fittest members have different runtime
classes, so the first mating of the evolve loop pairs them. -/
def herbyTop : Critter := mkTestCritter "Herby" 10
def plantMid : Critter := mkTestCritter "Plant" 5
def herbyLow : Critter := mkTestCritter "Herby" 1

/-- Two critters of the same class whose sensory extractor references differ
and whose brains have different layer topologies (one layer versus two). -/
def herbySensA : Critter :=
  { cls := "Herby"
    physique := some { mass := 1, max_s := 1, max_dsp := 1, max_dsn := 1, max_dh := 1 }
    sensory := some 1
    brain := some { afs := [id], coefs := [[[1]]], intercepts := [[0]] }
    location := Location.default
    fitness := 3
    energy := 0 }

def herbySensB : Critter :=
  { cls := "Herby"
    physique := some { mass := 2, max_s := 2, max_dsp := 2, max_dsn := 2, max_dh := 2 }
    sensory := some 2
    brain := some { afs := [id, id], coefs := [[[1]], [[1]]], intercepts := [[0], [0]] }
    location := Location.default
    fitness := 4
    energy := 0 }

/-- A concrete one-layer brain: input width 2, output width 3, identity
activation, all-zero biases. -/
def bTest : Brain :=
  { afs := [fun v => v]
    coefs := [[[1, 2, 3], [4, 5, 6]]]
    intercepts := [[0, 0, 0]] }

/-! ## Supporting lemmas -/

theorem length_insertDesc (c : Critter) (l : List Critter) :
    (insertDesc c l).length = l.length + 1 := by
  induction l with
  | nil => rfl
  | cons d ds ih =>
    simp only [insertDesc]
    split <;> simp [ih]

theorem length_sortByFitnessDesc (l : List Critter) :
    (sortByFitnessDesc l).length = l.length := by
  induction l with
  | nil => rfl
  | cons c cs ih =>
    simp only [sortByFitnessDesc, List.foldr] at *
    rw [length_insertDesc, ih]
    rfl

theorem insertDesc_perm (c : Critter) (l : List Critter) :
    List.Perm (insertDesc c l) (c :: l) := by
  induction l with
  | nil => rfl
  | cons d ds ih =>
    simp only [insertDesc]
    split
    · exact (ih.cons d).trans (List.Perm.swap c d ds)
    · rfl

/-- The sort is a permutation of its input. -/
theorem sortByFitnessDesc_perm (l : List Critter) :
    List.Perm (sortByFitnessDesc l) l := by
  induction l with
  | nil => rfl
  | cons c cs ih =>
    exact (insertDesc_perm c (sortByFitnessDesc cs)).trans (ih.cons c)

theorem insertDesc_sorted (c : Critter) (l : List Critter)
    (h : l.Sorted fitGe) : (insertDesc c l).Sorted fitGe := by
  induction l with
  | nil => simp [insertDesc, List.Sorted]
  | cons d ds ih =>
    simp only [insertDesc]
    rw [List.sorted_cons] at h
    split
    · rename_i hgt
      have hs := ih h.2
      rw [List.sorted_cons]
      refine ⟨fun b hb => ?_, hs⟩
      rcases List.mem_cons.mp ((insertDesc_perm c ds).mem_iff.mp hb) with hb | hb
      · subst hb; exact le_of_lt hgt
      · exact h.1 b hb
    · rename_i hle
      push_neg at hle
      rw [List.sorted_cons]
      refine ⟨fun b hb => ?_, by rw [List.sorted_cons]; exact h⟩
      rcases List.mem_cons.mp hb with hb | hb
      · subst hb; exact hle
      · exact le_trans (h.1 b hb) hle

/-- The sort output is in fitness-descending order. -/
theorem sortByFitnessDesc_sorted (l : List Critter) :
    (sortByFitnessDesc l).Sorted fitGe := by
  induction l with
  | nil => simp [sortByFitnessDesc, List.Sorted]
  | cons c cs ih => exact insertDesc_sorted c _ ih

theorem specActivation_cons (af : Vec → Vec) (A : List (Vec → Vec)) (m : Mat)
    (M : List Mat) (c : Vec) (C : List Vec) (x : Vec) (i : ℕ) :
    specActivation ⟨af :: A, m :: M, c :: C⟩ x (i + 1) =
      specActivation ⟨A, M, C⟩ (af (vecAdd (dotMV x m) c)) i := by
  induction i with
  | zero => simp [specActivation]
  | succ n ih =>
    conv_lhs => rw [specActivation]
    conv_rhs => rw [specActivation]
    rw [ih, List.getD_cons_succ, List.getD_cons_succ, List.getD_cons_succ]

theorem call_eq_specActivation (b : Brain) (x : Vec)
    (h1 : b.afs.length = b.coefs.length)
    (h2 : b.intercepts.length = b.coefs.length) :
    b.call x = specActivation b x b.coefs.length := by
  obtain ⟨A, M, C⟩ := b
  simp only at h1 h2
  induction M generalizing A C x with
  | nil =>
    rw [List.length_nil, List.length_eq_zero] at h1 h2
    subst h1; subst h2
    rfl
  | cons m M ih =>
    match A, C with
    | af :: A, c :: C =>
      simp only [List.length_cons, Nat.add_right_cancel_iff] at h1 h2
      show callLoop ((af :: A).zip ((m :: M).zip (c :: C))) x = _
      rw [List.zip_cons_cons, List.zip_cons_cons]
      show callLoop (A.zip (M.zip C)) (af (vecAdd (dotMV x m) c)) = _
      rw [List.length_cons, specActivation_cons]
      apply ih <;> assumption

theorem dotMV_zero (n k : ℕ) (m : Mat) (hm : m ≠ [])
    (hrows : ∀ row ∈ m, row.length = k) :
    dotMV (List.replicate n 0) m = List.replicate k 0 := by
  match m, hm with
  | r0 :: rest, _ =>
    simp only [dotMV]
    rw [hrows r0 (List.mem_cons_self r0 rest)]
    rw [List.eq_replicate_iff]
    refine ⟨by simp, ?_⟩
    intro b hb
    simp only [List.mem_map, List.mem_range] at hb
    obtain ⟨j, _, rfl⟩ := hb
    apply List.sum_eq_zero
    intro q hq
    simp only [List.mem_map] at hq
    obtain ⟨⟨a, row⟩, hmem, rfl⟩ := hq
    have ha : a = 0 := List.eq_of_mem_replicate (List.of_mem_zip hmem).1
    simp [ha]

theorem vecAdd_zero_zero (k : ℕ) :
    vecAdd (List.replicate k 0) (List.replicate k 0) = List.replicate k 0 := by
  induction k with
  | zero => rfl
  | succ n ih => simp [vecAdd, List.replicate]

theorem callLoop_zero (layers : List (Mat × Vec)) (afs : List (Vec → Vec))
    (win wout : ℕ)
    (hlen : afs.length = layers.length)
    (hid : ∀ af ∈ afs, ∀ v, af v = v)
    (hwf : layersWf layers win wout)
    (hbias : ∀ p ∈ layers, ∀ q ∈ p.2, q = (0 : ℚ)) :
    callLoop (afs.zip layers) (List.replicate win 0) = List.replicate wout 0 := by
  induction layers generalizing afs win with
  | nil =>
    rw [List.length_nil, List.length_eq_zero] at hlen
    subst hlen
    have hw : win = wout := hwf
    subst hw
    rfl
  | cons p rest ih =>
    obtain ⟨m, bias⟩ := p
    match afs with
    | af :: afs =>
      simp only [List.length_cons, Nat.add_right_cancel_iff] at hlen
      obtain ⟨hmlen, hwin, hrows, hrest⟩ := hwf
      rw [List.zip_cons_cons]
      show callLoop (afs.zip rest) (af (vecAdd (dotMV (List.replicate win 0) m) bias)) = _
      have hbias0 : bias = List.replicate bias.length 0 :=
        List.eq_replicate_iff.mpr ⟨rfl, hbias (m, bias) (List.mem_cons_self _ _)⟩
      have hm : m ≠ [] := by
        intro hnil
        rw [hnil] at hmlen
        simp only [List.length_nil] at hmlen
        omega
      have hvec : vecAdd (List.replicate bias.length 0) bias =
          List.replicate bias.length 0 := by
        nth_rewrite 2 [hbias0]
        exact vecAdd_zero_zero bias.length
      rw [dotMV_zero win bias.length m hm hrows, hvec,
        hid af (List.mem_cons_self _ _)]
      exact ih afs bias.length hlen
        (fun g hg => hid g (List.mem_cons_of_mem _ hg)) hrest
        (fun p hp => hbias p (List.mem_cons_of_mem _ hp))
    | [] => simp at hlen

/-! ## Evaluation helpers for the `Except` embedding -/

theorem except_bind_error {α β : Type} (e : PyError) (f : α → Except PyError β) :
    (Except.error e : Except PyError α) >>= f = .error e := rfl

theorem except_bind_ok {α β : Type} (a : α) (f : α → Except PyError β) :
    (Except.ok a : Except PyError α) >>= f = f a := rfl

/-- Every `_crossover` call raises `AttributeError` at its first physique key:
`getattr(primary, "mass")` looks `mass` up on the `Critter`, which has no such
attribute. -/
theorem crossover_raises (ga : GlobalGA) (p s : Critter) :
    ga.crossover p s = .error (.attributeError "Critter" "mass") := rfl

/-- `mate_pair` on same-class parents passes the species assert and then dies
inside `_crossover`; the mutation flags are never reached. -/
theorem matePair_raises_of_cls_eq (ga : GlobalGA) (p s : Critter) (loc : Location)
    (mp mb : Bool) (d : MateDraws) (h : p.cls = s.cls) :
    ga.matePair p s loc mp mb d = .error (.attributeError "Critter" "mass") := by
  simp only [GlobalGA.matePair, pyAssert, h, beq_self_eq_true, if_true, crossover_raises]
  rfl

/-- `mate_pair` on parents of different classes fails the
`primary.__class__ == secondary.__class__` assert at once. -/
theorem matePair_raises_of_cls_ne (ga : GlobalGA) (p s : Critter) (loc : Location)
    (mp mb : Bool) (d : MateDraws) (h : p.cls ≠ s.cls) :
    ga.matePair p s loc mp mb d = .error .assertionError := by
  have hb : (p.cls == s.cls) = false := beq_eq_false_iff_ne.mpr h
  simp only [GlobalGA.matePair, pyAssert, hb]
  rfl

theorem pySample2_short {α : Type} (l : List α) (i j : ℕ) (h : l.length < 2) :
    pySample2 l i j =
      .error (.valueError "Sample larger than population or is negative") := by
  match l with
  | [] => rfl
  | [_] => rfl
  | a :: b :: rest => simp only [List.length_cons] at h; omega

theorem getD_mem {α : Type} (l : List α) (n : ℕ) (d : α) (hd : d ∈ l) :
    l.getD n d ∈ l := by
  rcases Nat.lt_or_ge n l.length with h | h
  · rw [List.getD_eq_getElem l d h]
    exact List.getElem_mem h
  · rw [List.getD_eq_default l d h]
    exact hd

/-- On a parent pool with at least two members, `random.sample(pool, 2)`
succeeds and both returned parents are members of the pool. -/
theorem pySample2_mem {α : Type} (l : List α) (i j : ℕ) (h : 2 ≤ l.length) :
    ∃ x y, pySample2 l i j = .ok (x, y) ∧ x ∈ l ∧ y ∈ l := by
  match l with
  | [] => simp at h
  | [_] => simp at h
  | a :: b :: rest =>
    refine ⟨_, _, rfl, ?_, ?_⟩
    · exact getD_mem _ _ _ (List.mem_cons_self _ _)
    · exact getD_mem _ _ _ (List.mem_cons_self _ _)

theorem mapM_range_error {α : Type} (f : ℕ → Except PyError α) (n : ℕ) (e : PyError)
    (hn : 0 < n) (h0 : f 0 = .error e) :
    (List.range n).mapM f = .error e := by
  obtain ⟨m, rfl⟩ : ∃ m, n = m + 1 := ⟨n - 1, by omega⟩
  rw [List.range_succ_eq_map, List.mapM_cons, h0]
  rfl

/-- If the very first loop iteration of `evolve_generation` raises, the whole
call raises that error (there is no handler in the loop). -/
theorem evolve_error_head (ga : GlobalGA) (critters : List Critter)
    (mp mb : Bool) (draws : EvolveDraws) (e : PyError)
    (hdef : (ga.select critters).length < critters.length)
    (hhead : (do
        let ab ← pySample2 (ga.select critters) (draws.pairIdx 0).1 (draws.pairIdx 0).2
        ga.matePair ab.1 ab.2 Location.default mp mb (draws.mateAt 0)) = .error e) :
    ga.evolveGeneration critters mp mb draws = .error e := by
  unfold GlobalGA.evolveGeneration
  rw [mapM_range_error _ _ e (by omega) hhead]
  rfl

/-- Every member of the selected parent pool is a member of the population. -/
theorem select_mem (ga : GlobalGA) (critters : List Critter) (x : Critter)
    (hx : x ∈ ga.select critters) : x ∈ critters := by
  have h1 : x ∈ sortByFitnessDesc critters := List.mem_of_mem_take hx
  exact (sortByFitnessDesc_perm critters).mem_iff.mp h1

/-- With `0 ≤ selection_frac < 1` and a nonempty population, the selected pool
is strictly smaller than the population, so at least one offspring slot
remains. -/
theorem select_length_lt (ga : GlobalGA) (critters : List Critter)
    (h0 : 0 ≤ ga.selection_frac) (h1 : ga.selection_frac < 1)
    (hne : critters ≠ []) :
    (ga.select critters).length < critters.length := by
  have hN : 0 < critters.length := List.length_pos.mpr hne
  have hlen : (ga.select critters).length =
      min (pyInt ((critters.length : ℚ) * ga.selection_frac)).toNat critters.length := by
    simp [GlobalGA.select, List.length_take, length_sortByFitnessDesc]
  have hq : (0 : ℚ) ≤ (critters.length : ℚ) * ga.selection_frac :=
    mul_nonneg (Nat.cast_nonneg _) h0
  have hfl : (pyInt ((critters.length : ℚ) * ga.selection_frac)).toNat <
      critters.length := by
    rw [pyInt, if_pos hq, Int.floor_toNat, Nat.floor_lt hq]
    calc (critters.length : ℚ) * ga.selection_frac
        < (critters.length : ℚ) * 1 := by
          exact mul_lt_mul_of_pos_left h1 (by exact_mod_cast hN)
      _ = (critters.length : ℚ) := mul_one _
  rw [hlen]
  exact lt_of_le_of_lt (Nat.min_le_left _ _) hfl

/-! ## Claim theorems -/

/-- C1: the specification claims that for every population of size N ≥ 2 and
valid selection fraction, `evolve_generation` returns a population of exactly
size N (the selected parents plus the mated offspring).  The code cannot do
this: the first mating of the loop calls `_crossover`, which raises
`AttributeError` because it reads the `Physique` field names off the `Critter`
objects.  Evaluated here on a population of three same-species critters with
`selection_frac = 2/3` (two parents selected, one offspring required), the
call yields that error instead of a population of size 3. -/
theorem claimC1_evolve_generation_raises :
    gaTwoThirds.evolveGeneration [cF10, cF5, cF1] true true zeroDraws =
      .error (.attributeError "Critter" "mass") := by
  norm_num [GlobalGA.evolveGeneration, GlobalGA.select, sortByFitnessDesc, insertDesc,
    pyInt, cF10, cF1, cF5, mkTestCritter, gaTwoThirds]
  rfl

/-- C2: the specification claims the top `floor(N * selection_fraction)`
individuals by fitness appear unchanged and first in the output of
`evolve_generation`, followed by the offspring.  The code does compute
`selection + new_gen_pool`, but whenever the claim's premises are met (at
least two selected parents, all of one species, and at least one offspring
slot) no output ever materialises: for every population, seed and
mutation-flag combination the first mating raises `AttributeError` inside
`_crossover`. -/
theorem claimC2_elitist_output_never_returned (ga : GlobalGA)
    (critters : List Critter) (mp mb : Bool) (draws : EvolveDraws) (cls0 : String)
    (hcls : ∀ c ∈ critters, c.cls = cls0)
    (h2 : 2 ≤ (ga.select critters).length)
    (hlt : (ga.select critters).length < critters.length) :
    ga.evolveGeneration critters mp mb draws =
      .error (.attributeError "Critter" "mass") := by
  apply evolve_error_head ga critters mp mb draws _ hlt
  obtain ⟨x, y, hxy, hx, hy⟩ :=
    pySample2_mem (ga.select critters) (draws.pairIdx 0).1 (draws.pairIdx 0).2 h2
  rw [hxy, except_bind_ok]
  exact matePair_raises_of_cls_eq ga x y Location.default mp mb (draws.mateAt 0)
    (by rw [hcls x (select_mem ga critters x hx), hcls y (select_mem ga critters y hy)])

theorem claimC2_elitist_output_never_returned_witness :
    gaThreeQuarters.evolveGeneration [cF10, cF5, cF2, cF1] true true zeroDraws =
      .error (.attributeError "Critter" "mass") :=
  claimC2_elitist_output_never_returned gaThreeQuarters [cF10, cF5, cF2, cF1]
    true true zeroDraws "Herby"
    (by intro c hc; fin_cases hc <;> rfl)
    (by norm_num [GlobalGA.select, sortByFitnessDesc, insertDesc, pyInt,
      cF10, cF1, cF5, cF2, mkTestCritter, gaThreeQuarters])
    (by norm_num [GlobalGA.select, sortByFitnessDesc, insertDesc, pyInt,
      cF10, cF1, cF5, cF2, mkTestCritter, gaThreeQuarters])

/-- C3: the specification claims `_mutate_physique` picks one trait uniformly
and replaces its value with a draw from `[v*(1-rate), v*(1+rate)]`, so rate 0
leaves the genome numerically unchanged.  In the code (Python 3),
`random.choice` is handed the non-indexable `dict_keys` view and raises
`TypeError` for every physique, rate and draw (first conjunct); moreover the
update formula adds `val` to the drawn value, so even with the choice fixed a
rate-0 mutation would set the field to `2 * val`, not `val` (second
conjunct). -/
theorem claimC3_mutate_physique_diverges :
    (∀ (ga : GlobalGA) (ph : Physique) (pick : ℕ) (u : ℚ),
      ga.mutatePhysique ph pick u =
        .error (.typeError "dict_keys object is not subscriptable")) ∧
    (∀ val u : ℚ,
      val + npUniform (val * (1 - 0)) (val * (1 + 0)) u = 2 * val) := by
  constructor
  · intro ga ph pick u
    rfl
  · intro val u
    unfold npUniform
    ring

/-- C4: the specification claims `_crossover` blends every physique scalar and
every weight tensor linearly with weight `crossover_rate`, so rate 0 copies
the primary parent exactly and rate 1 the secondary.  The code never computes
any blend: for all hyperparameters and parents it raises `AttributeError` on
its first lookup (`getattr(primary, "mass")` — the physique fields live on
`primary.physique`, not on the critter), and past that `Brain(**cross_b_atts)`
would still omit the required `afs` argument. -/
theorem claimC4_crossover_raises (ga : GlobalGA) (p s : Critter) :
    ga.crossover p s = .error (.attributeError "Critter" "mass") :=
  crossover_raises ga p s

/-- C5: `Brain.__call__` on a single input vector returns the final element of
the activation sequence `activation[0] = x`,
`activation[i+1] = afs[i](activation[i] · coefs[i] + intercepts[i])` (first
conjunct, under the constructor's equal-length assertion), and on an all-zero
input with all-zero biases and identity activations a well-shaped network
outputs the zero vector of its output width (second conjunct). -/
theorem claimC5_brain_infer (b : Brain) (x : Vec)
    (h1 : b.afs.length = b.coefs.length)
    (h2 : b.intercepts.length = b.coefs.length) :
    b.call x = specActivation b x b.coefs.length ∧
    (∀ win wout : ℕ,
      layersWf (b.coefs.zip b.intercepts) win wout →
      (∀ af ∈ b.afs, ∀ v, af v = v) →
      (∀ bias ∈ b.intercepts, ∀ q ∈ bias, q = (0 : ℚ)) →
      x = List.replicate win 0 →
      b.call x = List.replicate wout 0) := by
  refine ⟨call_eq_specActivation b x h1 h2, ?_⟩
  intro win wout hwf hid hbias hx
  subst hx
  have hzl : b.afs.length = (b.coefs.zip b.intercepts).length := by
    rw [List.length_zip]
    omega
  have hb2 : ∀ p ∈ b.coefs.zip b.intercepts, ∀ q ∈ p.2, q = (0 : ℚ) := by
    intro p hp q hq
    exact hbias p.2 (List.of_mem_zip hp).2 q hq
  exact callLoop_zero (b.coefs.zip b.intercepts) b.afs win wout hzl hid hwf hb2

theorem claimC5_brain_infer_witness :
    bTest.call [0, 0] = List.replicate 3 0 :=
  (claimC5_brain_infer bTest [0, 0] rfl rfl).2 2 3
    (by simp [bTest, layersWf])
    (by intro af haf v
        simp only [bTest] at haf
        fin_cases haf
        rfl)
    (by intro bias hb q hq
        simp only [bTest] at hb
        fin_cases hb
        simp at hq
        exact hq)
    rfl

/-- C6: `_select` sorts by fitness descending with the stable tie-break and
keeps the first `int(len(c) * selection_frac)` critters; for a nonnegative
selection fraction the Python truncation agrees with the floor of the exact
product, giving the spec's `floor(N * selection_fraction)` prefix of the
stable descending sort (first conjunct).  On the spec's example population
with fitness [10, 1, 5, 2] and fraction 1/2 the pool is the fitness-10 and
fitness-5 individuals in that order (second conjunct), and equal-fitness
critters keep their original relative order (third conjunct). -/
theorem claimC6_select (ga : GlobalGA) (critters : List Critter)
    (h0 : 0 ≤ ga.selection_frac) :
    ga.select critters =
      (sortByFitnessDesc critters).take
        ⌊(critters.length : ℚ) * ga.selection_frac⌋₊ ∧
    gaHalf.select [cF10, cF1, cF5, cF2] = [cF10, cF5] ∧
    sortByFitnessDesc [tieLow, tieA, tieB] = [tieA, tieB, tieLow] := by
  refine ⟨?_, ?_, rfl⟩
  · have hq : (0 : ℚ) ≤ (critters.length : ℚ) * ga.selection_frac :=
      mul_nonneg (Nat.cast_nonneg _) h0
    simp only [GlobalGA.select, length_sortByFitnessDesc]
    rw [pyInt, if_pos hq, Int.floor_toNat]
  · norm_num [GlobalGA.select, sortByFitnessDesc, insertDesc, pyInt,
      cF10, cF1, cF5, cF2, mkTestCritter, gaHalf]
    rfl

theorem claimC6_select_witness :
    gaHalf.select [cF10, cF1, cF5, cF2] =
      (sortByFitnessDesc [cF10, cF1, cF5, cF2]).take
        ⌊(([cF10, cF1, cF5, cF2] : List Critter).length : ℚ) *
          gaHalf.selection_frac⌋₊ :=
  (claimC6_select gaHalf [cF10, cF1, cF5, cF2] (by norm_num [gaHalf])).1

/-- C7: the specification claims `_mutate_brain` rebuilds exactly one
(attribute, layer) tensor and leaves every other layer unchanged.  The code
instead raises `TypeError` for every brain, hyperparameter set and random
draw: `random.choice(list(range(brain.coefs)))` applies the builtin `range`
to the coefficient list itself instead of to a layer count. -/
theorem claimC7_mutate_brain_raises (ga : GlobalGA) (b : Brain)
    (attPick layerPick : ℕ) (u : ℕ → ℕ → ℚ) :
    ga.mutateBrain b attPick layerPick u =
      .error (.typeError "list object cannot be interpreted as an integer") := by
  unfold GlobalGA.mutateBrain
  rcases Nat.mod_two_eq_zero_or_one attPick with h | h <;>
    simp [pyChoice, pyRange, h, except_bind_ok, except_bind_error]

/-- C8 counterexample: the claim says selection or evolution invoked with zero
or one individual fails with an explicit, reported EmptyPopulationError.  On
the empty population the code raises nothing at all: selection returns the
empty list and `evolve_generation` returns the empty population
successfully. -/
theorem claimC8_counterexample :
    gaHalf.evolveGeneration [] true true zeroDraws = .ok [] := by
  norm_num [GlobalGA.evolveGeneration, GlobalGA.select, sortByFitnessDesc, pyInt]
  rfl

/-- C8 amended: no EmptyPopulationError exists anywhere in the code.
`_select` never raises (an undersized population just yields an empty or
singleton pool); `evolve_generation` on a nonempty population whose pool has
fewer than two members fails with the ValueError raised inside
`random.sample` — exactly the obscure sampling error the spec says must not
be the failure mode (first conjunct) — while on the empty population it
silently returns an empty next generation (second conjunct). -/
theorem claimC8_small_population (ga : GlobalGA) (critters : List Critter)
    (mp mb : Bool) (draws : EvolveDraws)
    (h0 : 0 ≤ ga.selection_frac) (h1 : ga.selection_frac < 1)
    (hne : critters ≠ []) (hsel : (ga.select critters).length < 2) :
    ga.evolveGeneration critters mp mb draws =
      .error (.valueError "Sample larger than population or is negative") ∧
    ∀ (ga2 : GlobalGA) (mp2 mb2 : Bool) (draws2 : EvolveDraws),
      ga2.evolveGeneration [] mp2 mb2 draws2 = .ok [] := by
  constructor
  · apply evolve_error_head ga critters mp mb draws _
      (select_length_lt ga critters h0 h1 hne)
    rw [pySample2_short _ _ _ hsel, except_bind_error]
  · intro ga2 mp2 mb2 draws2
    simp [GlobalGA.evolveGeneration, GlobalGA.select, sortByFitnessDesc, List.take_nil]
    rfl

theorem claimC8_small_population_witness :
    gaHalf.evolveGeneration [cF10] true true zeroDraws =
      .error (.valueError "Sample larger than population or is negative") :=
  (claimC8_small_population gaHalf [cF10] true true zeroDraws
    (by norm_num [gaHalf]) (by norm_num [gaHalf]) (by simp)
    (by norm_num [GlobalGA.select, sortByFitnessDesc, insertDesc, pyInt,
      cF10, mkTestCritter, gaHalf])).1

/-- C9 counterexample: the claim says mating genomes with incompatible sensory
extractors or layer topologies raises a SpeciesMismatch error.  These two
same-class parents have different sensory references and different layer
counts, yet no species check fires: the call fails only with the unrelated
`AttributeError` from `_crossover`, not with any species assertion. -/
theorem claimC9_counterexample :
    gaHalf.matePair herbySensA herbySensB Location.default false false
      (zeroDraws.mateAt 0) = .error (.attributeError "Critter" "mass") := rfl

/-- C9 amended: mating two critters of different runtime classes fails the
`assert primary.__class__ == secondary.__class__` — an AssertionError, which
is the only species check in the code — before any offspring is constructed
(first conjunct), and the evolve loop installs no handler: a mixed-species
parent pool makes the whole `evolve_generation` call fail with that same
AssertionError (second conjunct).  Sensory-extractor and layer-topology
compatibility are never checked. -/
theorem claimC9_species_assert :
    (∀ (ga : GlobalGA) (p s : Critter) (loc : Location) (mp mb : Bool)
      (d : MateDraws), p.cls ≠ s.cls →
      ga.matePair p s loc mp mb d = .error .assertionError) ∧
    gaTwoThirds.evolveGeneration [herbyTop, plantMid, herbyLow] true true zeroDraws =
      .error .assertionError := by
  constructor
  · intro ga p s loc mp mb d h
    exact matePair_raises_of_cls_ne ga p s loc mp mb d h
  · norm_num [GlobalGA.evolveGeneration, GlobalGA.select, sortByFitnessDesc, insertDesc,
      pyInt, herbyTop, plantMid, herbyLow, mkTestCritter, gaTwoThirds]
    rfl

theorem claimC9_species_assert_witness :
    gaHalf.matePair herbyTop plantMid Location.default true true (zeroDraws.mateAt 0) =
      .error .assertionError :=
  claimC9_species_assert.1 gaHalf herbyTop plantMid Location.default true true
    (zeroDraws.mateAt 0) (by simp [herbyTop, plantMid, mkTestCritter])

/-- C10: the specification claims `mate_pair` returns one offspring carrying
the primary parent's sensory reference, the freshly supplied location, and the
species' default initial fitness.  The construction line of the code would do
exactly that (`cls(new_physique, sensory, new_brain, location)` with
`Critter.__init__`'s defaulted `fitness=0`), but it is unreachable: for every
pair of same-class parents — the only pairs that pass the species assert —
and all hyperparameters, flags and draws, `mate_pair` raises `AttributeError`
inside `_crossover` and returns no offspring. -/
theorem claimC10_mate_pair_raises (ga : GlobalGA) (p s : Critter) (loc : Location)
    (mp mb : Bool) (d : MateDraws) (h : p.cls = s.cls) :
    ga.matePair p s loc mp mb d = .error (.attributeError "Critter" "mass") :=
  matePair_raises_of_cls_eq ga p s loc mp mb d h

theorem claimC10_mate_pair_raises_witness :
    gaHalf.matePair cF10 cF5 Location.default true true (zeroDraws.mateAt 0) =
      .error (.attributeError "Critter" "mass") :=
  claimC10_mate_pair_raises gaHalf cF10 cF5 Location.default true true
    (zeroDraws.mateAt 0) rfl

end Mlgen2
